import Mathlib

/-!
Verification development for the `dualshock4` library: a decoder that maps a
raw USB HID input report buffer to a typed `DualShockState` snapshot, plus a
connection manager and a latest-value state channel.  The definitions below
are a shallow embedding of `src/dualshock.ts` and its companion interface
files; a report buffer is embedded as a function from byte index to byte
value (every read of a Node `Buffer` cell yields a value in `0..255`, which
the `wellFormed` predicate captures).
-/

/-- Coordinates record used for sticks, motion and touchpad touch detection
(`coordinates.ts`). -/
structure Coordinates where
  x : Int
  y : Int
  z : Int
deriving DecidableEq

/-- State of analog buttons L2 and R2 (`analog-state.ts`). -/
structure AnalogState where
  pressed : Bool
  value : Nat
deriving DecidableEq

/-- Gyroscope sensor state (`orientation-state.ts`). -/
structure OrientationState where
  pitch : Int
  roll : Int
  yaw : Int
deriving DecidableEq

/-- State of one touchpad touch (`touch-state.ts`). -/
structure TouchState where
  active : Bool
  coordinates : Coordinates
  id : Nat
deriving DecidableEq

/-- Touchpad state: press flag plus the two touch sensors
(`touch-pad-state.ts`). -/
structure TouchPadState where
  pressed : Bool
  touches : List TouchState
deriving DecidableEq

/-- Full controller snapshot (`dualshock-state.ts`). -/
structure DualShockState where
  battery : Nat
  circle : Bool
  cross : Bool
  dPadDown : Bool
  dPadLeft : Bool
  dPadRight : Bool
  dPadUp : Bool
  l1 : Bool
  l2 : AnalogState
  l3 : Bool
  leftStick : Coordinates
  motion : Coordinates
  options : Bool
  orientation : OrientationState
  ps : Bool
  r1 : Bool
  r2 : AnalogState
  r3 : Bool
  rightStick : Coordinates
  share : Bool
  square : Bool
  timestamp : Nat
  touchPad : TouchPadState
  triangle : Bool
deriving DecidableEq

/-- A raw HID report buffer, embedded as the byte-at-index function. -/
def HIDReport : Type := Nat → Nat

/-- Every cell of a Node `Buffer` reads as a byte in `0..255`. -/
def wellFormed (data : HIDReport) : Prop :=
  ∀ i, data i < 256

/-- Builds a concrete report buffer from a list of byte values (out-of-range
indices read 0, mirroring test scaffolding, and each entry is reduced mod 256
so the result is always well formed). -/
def mkReport (l : List Nat) : HIDReport :=
  fun i => (l.getD i 0) % 256

theorem mkReport_wellFormed (l : List Nat) : wellFormed (mkReport l) :=
  fun _ => Nat.mod_lt _ (by omega)

/-- Node `Buffer.readInt16LE`: two bytes, little endian, interpreted as a
signed 16-bit twos-complement value. -/
def readInt16LE (data : HIDReport) (offset : Nat) : Int :=
  let v : Nat := data offset + 256 * data (offset + 1)
  if v < 32768 then (v : Int) else (v : Int) - 65536

namespace DualShock

/-- DPad Up state from the low nibble of byte 5 (`_getDPadUpState`). -/
def getDPadUpState (state : Nat) : Bool :=
  state == 0 || state == 1 || state == 7

/-- DPad Down state from the low nibble of byte 5 (`_getDPadDownState`). -/
def getDPadDownState (state : Nat) : Bool :=
  state == 3 || state == 4 || state == 5

/-- DPad Left state from the low nibble of byte 5 (`_getDPadLeftState`). -/
def getDPadLeftState (state : Nat) : Bool :=
  state == 5 || state == 6 || state == 7

/-- DPad Right state from the low nibble of byte 5 (`_getDPadRightState`). -/
def getDPadRightState (state : Nat) : Bool :=
  state == 1 || state == 2 || state == 3

/-- Cross state from byte 5 (`_getCrossState`). -/
def getCrossState (state : Nat) : Bool :=
  (state &&& 32) != 0

/-- Circle state from byte 5 (`_getCircleState`). -/
def getCircleState (state : Nat) : Bool :=
  (state &&& 64) != 0

/-- Square state from byte 5 (`_getSquareState`). -/
def getSquareState (state : Nat) : Bool :=
  (state &&& 16) != 0

/-- Triangle state from byte 5 (`_getTriangleState`). -/
def getTriangleState (state : Nat) : Bool :=
  (state &&& 128) != 0

/-- Left stick coordinates from bytes 1 and 2 (`_getLeftStickState`). -/
def getLeftStickState (state : HIDReport) : Coordinates :=
  { x := (state 1 : Int), y := (state 2 : Int), z := 0 }

/-- Right stick coordinates from bytes 3 and 4 (`_getRightStickState`). -/
def getRightStickState (state : HIDReport) : Coordinates :=
  { x := (state 3 : Int), y := (state 4 : Int), z := 0 }

/-- R3 state from byte 6 (`_getR3State`). -/
def getR3State (state : Nat) : Bool :=
  (state &&& 128) != 0

/-- L3 state from byte 6 (`_getL3State`). -/
def getL3State (state : Nat) : Bool :=
  (state &&& 64) != 0

/-- Options button state from byte 6 (`_getOptionsState`). -/
def getOptionsState (state : Nat) : Bool :=
  (state &&& 32) != 0

/-- Share state from byte 6 (`_getShareState`). -/
def getShareState (state : Nat) : Bool :=
  (state &&& 16) != 0

/-- L1 state from byte 6 (`_getL1State`). -/
def getL1State (state : Nat) : Bool :=
  (state &&& 1) != 0

/-- R1 state from byte 6 (`_getR1State`). -/
def getR1State (state : Nat) : Bool :=
  (state &&& 2) != 0

/-- R2 analog state: pressed flag from byte 6 bit 3, value from byte 9
(`_getR2State`). -/
def getR2State (state : HIDReport) : AnalogState :=
  { pressed := (state 6 &&& 8) != 0, value := state 9 }

/-- L2 analog state: pressed flag from byte 6 bit 2, value from byte 8
(`_getL2State`). -/
def getL2State (state : HIDReport) : AnalogState :=
  { pressed := (state 6 &&& 4) != 0, value := state 8 }

/-- Motion sensor coordinates from three little-endian int16 reads at
offsets 13, 15 and 17, with Y and Z negated (`_getMotionState`). -/
def getMotionState (state : HIDReport) : Coordinates :=
  { x := readInt16LE state 13
    y := -readInt16LE state 15
    z := -readInt16LE state 17 }

/-- Gyroscope orientation from three little-endian int16 reads at offsets
19, 21 and 23, with roll negated (`_getOrientationState`). -/
def getOrientationState (state : HIDReport) : OrientationState :=
  { roll := -readInt16LE state 19
    yaw := readInt16LE state 21
    pitch := readInt16LE state 23 }

/-- Internal controller timestamp: byte 7 shifted right by two bits
(`_getTimestampState`). -/
def getTimestampState (state : Nat) : Nat :=
  state >>> 2

/-- Touchpad state from byte 7 bit 1 (press) and bytes 35..38 and 39..42
(the two touch sensors) (`_getTrackPadState`). -/
def getTrackPadState (state : HIDReport) : TouchPadState :=
  { pressed := (state 7 &&& 2) != 0
    touches :=
      [ { active := (state 35 >>> 7) == 0
          coordinates :=
            { x := (((state 37 &&& 0x0f) <<< 8) ||| state 36 : Nat)
              y := ((state 38 <<< 4) ||| ((state 37 &&& 0xf0) >>> 4) : Nat)
              z := 0 }
          id := state 35 &&& 0x7f }
      , { active := (state 39 >>> 7) == 0
          coordinates :=
            { x := (((state 41 &&& 0x0f) <<< 8) ||| state 40 : Nat)
              y := ((state 42 <<< 4) ||| ((state 41 &&& 0xf0) >>> 4) : Nat)
              z := 0 }
          id := state 39 &&& 0x7f } ] }

/-- PS button state from byte 7 (`_getPsState`). -/
def getPsState (state : Nat) : Bool :=
  (state &&& 1) != 0

/-- Pure core of `_parseHIDData`: decodes one HID report buffer into a full
`DualShockState` snapshot (the method then publishes the snapshot to the
state channel, modelled separately below). -/
def parseHIDData (data : HIDReport) : DualShockState :=
  { battery := data 12
    circle := getCircleState (data 5)
    cross := getCrossState (data 5)
    dPadDown := getDPadDownState (data 5 &&& 15)
    dPadLeft := getDPadLeftState (data 5 &&& 15)
    dPadRight := getDPadRightState (data 5 &&& 15)
    dPadUp := getDPadUpState (data 5 &&& 15)
    l1 := getL1State (data 6)
    l2 := getL2State data
    l3 := getL3State (data 6)
    leftStick := getLeftStickState data
    motion := getMotionState data
    options := getOptionsState (data 6)
    orientation := getOrientationState data
    ps := getPsState (data 7)
    r1 := getR1State (data 6)
    r2 := getR2State data
    r3 := getR3State (data 6)
    rightStick := getRightStickState data
    share := getShareState (data 6)
    square := getSquareState (data 5)
    timestamp := getTimestampState (data 7)
    touchPad := getTrackPadState data
    triangle := getTriangleState (data 5) }

end DualShock

/-- Modelled from the spec: one observer of the State Channel, carrying the
list of values it has observed so far (the rxjs subscriber callbacks that
back `DualShock.state` live in an external library, not under `src/`). -/
structure Observer (α : Type) where
  id : Nat
  observed : List α

/-- Modelled from the spec: the State Channel backing `DualShock.state` (an
rxjs `BehaviorSubject`, external to `src/`) — a single-slot latest-value
publish/subscribe primitive holding the current value, a fresh observer
identifier, and the registered observers in registration order. -/
structure StateChannel (α : Type) where
  current : α
  nextId : Nat
  observers : List (Observer α)

namespace StateChannel

/-- Modelled from the spec: `publish` replaces the current value and
synchronously notifies every observer registered at the moment of publish,
in registration order, with the new value. -/
def publish (c : StateChannel α) (v : α) : StateChannel α :=
  { current := v
    nextId := c.nextId
    observers := c.observers.map (fun o => { o with observed := o.observed ++ [v] }) }

/-- Modelled from the spec: `subscribe` registers a fresh observer and
immediately replays the current value to it (last-value replay); it returns
the handle (the fresh identifier) that permits unsubscribing. -/
def subscribe (c : StateChannel α) : StateChannel α × Nat :=
  ({ current := c.current
     nextId := c.nextId + 1
     observers := c.observers ++ [{ id := c.nextId, observed := [c.current] }] },
   c.nextId)

end StateChannel

/-- Configuration options (`dualshock-options.ts`); every field is optional. -/
structure DualShockOptions where
  productID : Option Nat
  tag : Option String
  vendorID : Option Nat
deriving DecidableEq

/-- JavaScript falsy coalescing `x || d` on an optional number: the default
replaces a missing or zero value. -/
def orDefaultNat (v : Option Nat) (d : Nat) : Nat :=
  match v with
  | none => d
  | some x => if x = 0 then d else x

/-- JavaScript falsy coalescing `x || d` on an optional string: the default
replaces a missing or empty value. -/
def orDefaultString (v : Option String) (d : String) : String :=
  match v with
  | none => d
  | some s => if s = "" then d else s

/-- Resolved configuration held in `_options` after construction. -/
structure ResolvedOptions where
  vendorID : Nat
  productID : Nat
  tag : String
deriving DecidableEq

/-- One enumerated HID device, as reported by the node-hid `devices()`
listing. -/
structure Device where
  vendorId : Nat
  productId : Nat
deriving DecidableEq

/-- An HID handle opened for a vendor and product identifier; `close()`
clears the open flag. -/
structure Handle where
  vendorID : Nat
  productID : Nat
  isOpen : Bool
deriving DecidableEq

/-- Observable side effects of the connection manager and error handler,
reified as trace actions: log lines at INFO and ERROR level, the device
enumeration, opening and closing the handle, and registering the data and
error callbacks. -/
inductive HIDAction where
  | logInfo
  | logError
  | enumerate
  | openHandle
  | registerData
  | registerError
  | closeHandle
deriving DecidableEq

namespace DualShock

/-- The constructor body: fills each missing or falsy option with its
default before storing `_options`. -/
def construct (options : Option DualShockOptions) : ResolvedOptions :=
  let o := options.getD { productID := none, tag := none, vendorID := none }
  { vendorID := orDefaultNat o.vendorID 0x054c
    productID := orDefaultNat o.productID 0x09cc
    tag := orDefaultString o.tag "DualShock" }

/-- Matches one enumerated device against the configured identifiers
(`_findDevice`). -/
def findDevice (opts : ResolvedOptions) (device : Device) : Bool :=
  device.vendorId == opts.vendorID && device.productId == opts.productID

/-- The `connect()` method: log the attempt at INFO level, enumerate the
devices, and either open a handle and register the data and error callbacks
(first matching device) or log one ERROR and stay disconnected. Returns the
resulting handle slot (`_hid`; `none` means disconnected) together with the
trace of performed actions. -/
def connect (devs : List Device) (opts : ResolvedOptions) :
    Option Handle × List HIDAction :=
  match devs.find? (findDevice opts) with
  | some _ =>
      (some { vendorID := opts.vendorID, productID := opts.productID, isOpen := true },
       [HIDAction.logInfo, HIDAction.enumerate, HIDAction.openHandle,
        HIDAction.registerData, HIDAction.registerError])
  | none =>
      (none, [HIDAction.logInfo, HIDAction.enumerate, HIDAction.logError])

/-- The mutable pieces of a `DualShock` object reachable from the callbacks:
the handle slot `_hid` and the state channel `state`. -/
structure ControllerModel where
  hid : Option Handle
  channel : StateChannel (Option DualShockState)

/-- The `_handleHIDError` callback: close the handle and log the fault at
ERROR level; nothing else is touched and no reconnection is attempted. -/
def handleHIDError (m : ControllerModel) : ControllerModel × List HIDAction :=
  ({ hid := m.hid.map (fun h => { h with isOpen := false }), channel := m.channel },
   [HIDAction.closeHandle, HIDAction.logError])

/-- The registered data callback (`_parseHIDData` as a whole): decode the
report and publish the snapshot to the state channel. -/
def onData (m : ControllerModel) (data : HIDReport) : ControllerModel :=
  { m with channel := StateChannel.publish m.channel (some (parseHIDData data)) }

end DualShock

/-! ### Helper lemmas about bit extraction -/

theorem and_pow_ne_testBit (n k : Nat) : ((n &&& 2 ^ k) != 0) = n.testBit k := by
  rw [Nat.and_two_pow]
  cases h : n.testBit k <;> simp

theorem and_15_eq_mod (n : Nat) : n &&& 15 = n % 16 := by
  simpa using Nat.and_pow_two_sub_one_eq_mod n 4

theorem getDPadUpState_eq (n : Nat) :
    DualShock.getDPadUpState n = decide (n = 0 ∨ n = 1 ∨ n = 7) := by
  unfold DualShock.getDPadUpState
  rw [Bool.eq_iff_iff]
  simp only [Bool.or_eq_true, beq_iff_eq, decide_eq_true_eq]
  tauto

theorem getDPadRightState_eq (n : Nat) :
    DualShock.getDPadRightState n = decide (n = 1 ∨ n = 2 ∨ n = 3) := by
  unfold DualShock.getDPadRightState
  rw [Bool.eq_iff_iff]
  simp only [Bool.or_eq_true, beq_iff_eq, decide_eq_true_eq]
  tauto

theorem getDPadDownState_eq (n : Nat) :
    DualShock.getDPadDownState n = decide (n = 3 ∨ n = 4 ∨ n = 5) := by
  unfold DualShock.getDPadDownState
  rw [Bool.eq_iff_iff]
  simp only [Bool.or_eq_true, beq_iff_eq, decide_eq_true_eq]
  tauto

theorem getDPadLeftState_eq (n : Nat) :
    DualShock.getDPadLeftState n = decide (n = 5 ∨ n = 6 ∨ n = 7) := by
  unfold DualShock.getDPadLeftState
  rw [Bool.eq_iff_iff]
  simp only [Bool.or_eq_true, beq_iff_eq, decide_eq_true_eq]
  tauto

/-! ### Claim C1: face buttons -/

/-- C1 counterexample: on a report whose byte 5 is 0b11110000 (= 240) the
decoded snapshot has cross = true and circle = true, because bits 5 and 6 of
240 are set — the claimed outputs cross = false and circle = false are
wrong. -/
theorem claim_C1_counterexample :
    ¬ ((DualShock.parseHIDData (mkReport [0, 0, 0, 0, 0, 240])).cross = false ∧
       (DualShock.parseHIDData (mkReport [0, 0, 0, 0, 0, 240])).circle = false) := by
  decide

/-- C1 (amended): each face button is a pure bitmask test of byte 5, with
square at bit 4, cross at bit 5, circle at bit 6 and triangle at bit 7; for
a report whose byte 5 equals 0b11110000 all four face buttons decode to
true, since bits 4, 5, 6 and 7 of 240 are all set. -/
theorem claim_C1_face_buttons (d e : HIDReport) (h5 : d 5 = 240) :
    ((DualShock.parseHIDData d).square = true ∧
     (DualShock.parseHIDData d).cross = true ∧
     (DualShock.parseHIDData d).circle = true ∧
     (DualShock.parseHIDData d).triangle = true) ∧
    ((DualShock.parseHIDData e).square = (e 5).testBit 4 ∧
     (DualShock.parseHIDData e).cross = (e 5).testBit 5 ∧
     (DualShock.parseHIDData e).circle = (e 5).testBit 6 ∧
     (DualShock.parseHIDData e).triangle = (e 5).testBit 7) := by
  constructor
  · refine ⟨?_, ?_, ?_, ?_⟩
    · show DualShock.getSquareState (d 5) = true
      rw [h5]; decide
    · show DualShock.getCrossState (d 5) = true
      rw [h5]; decide
    · show DualShock.getCircleState (d 5) = true
      rw [h5]; decide
    · show DualShock.getTriangleState (d 5) = true
      rw [h5]; decide
  · refine ⟨?_, ?_, ?_, ?_⟩
    · show ((e 5 &&& 16) != 0) = (e 5).testBit 4
      simpa using and_pow_ne_testBit (e 5) 4
    · show ((e 5 &&& 32) != 0) = (e 5).testBit 5
      simpa using and_pow_ne_testBit (e 5) 5
    · show ((e 5 &&& 64) != 0) = (e 5).testBit 6
      simpa using and_pow_ne_testBit (e 5) 6
    · show ((e 5 &&& 128) != 0) = (e 5).testBit 7
      simpa using and_pow_ne_testBit (e 5) 7

/-- C1 witness: the amended face-button theorem applied at two concrete
reports, one with byte 5 = 240 and one with byte 5 = 37. -/
theorem claim_C1_face_buttons_witness :
    ((DualShock.parseHIDData (mkReport [0, 0, 0, 0, 0, 240])).square = true ∧
     (DualShock.parseHIDData (mkReport [0, 0, 0, 0, 0, 240])).cross = true ∧
     (DualShock.parseHIDData (mkReport [0, 0, 0, 0, 0, 240])).circle = true ∧
     (DualShock.parseHIDData (mkReport [0, 0, 0, 0, 0, 240])).triangle = true) ∧
    ((DualShock.parseHIDData (mkReport [0, 0, 0, 0, 0, 37])).square =
       ((mkReport [0, 0, 0, 0, 0, 37]) 5).testBit 4 ∧
     (DualShock.parseHIDData (mkReport [0, 0, 0, 0, 0, 37])).cross =
       ((mkReport [0, 0, 0, 0, 0, 37]) 5).testBit 5 ∧
     (DualShock.parseHIDData (mkReport [0, 0, 0, 0, 0, 37])).circle =
       ((mkReport [0, 0, 0, 0, 0, 37]) 5).testBit 6 ∧
     (DualShock.parseHIDData (mkReport [0, 0, 0, 0, 0, 37])).triangle =
       ((mkReport [0, 0, 0, 0, 0, 37]) 5).testBit 7) :=
  claim_C1_face_buttons (mkReport [0, 0, 0, 0, 0, 240]) (mkReport [0, 0, 0, 0, 0, 37])
    (by decide)

/-! ### Claim C4: D-pad hat-switch decoding -/

/-- C4: the four D-pad flags are a function of the low nibble of byte 5
under the hat-switch encoding — Up at 0, 1, 7; Right at 1, 2, 3; Down at 3,
4, 5; Left at 5, 6, 7; nibble 0 gives dPadUp with the other three false,
and nibble 8 (released) gives all four flags false. -/
theorem claim_C4_dpad (d e f : HIDReport) (h0 : d 5 % 16 = 0) (h8 : e 5 % 16 = 8) :
    ((DualShock.parseHIDData d).dPadUp = true ∧
     (DualShock.parseHIDData d).dPadRight = false ∧
     (DualShock.parseHIDData d).dPadDown = false ∧
     (DualShock.parseHIDData d).dPadLeft = false) ∧
    ((DualShock.parseHIDData e).dPadUp = false ∧
     (DualShock.parseHIDData e).dPadRight = false ∧
     (DualShock.parseHIDData e).dPadDown = false ∧
     (DualShock.parseHIDData e).dPadLeft = false) ∧
    ((DualShock.parseHIDData f).dPadUp =
       decide (f 5 % 16 = 0 ∨ f 5 % 16 = 1 ∨ f 5 % 16 = 7) ∧
     (DualShock.parseHIDData f).dPadRight =
       decide (f 5 % 16 = 1 ∨ f 5 % 16 = 2 ∨ f 5 % 16 = 3) ∧
     (DualShock.parseHIDData f).dPadDown =
       decide (f 5 % 16 = 3 ∨ f 5 % 16 = 4 ∨ f 5 % 16 = 5) ∧
     (DualShock.parseHIDData f).dPadLeft =
       decide (f 5 % 16 = 5 ∨ f 5 % 16 = 6 ∨ f 5 % 16 = 7)) := by
  refine ⟨⟨?_, ?_, ?_, ?_⟩, ⟨?_, ?_, ?_, ?_⟩, ?_, ?_, ?_, ?_⟩
  · show DualShock.getDPadUpState (d 5 &&& 15) = true
    rw [and_15_eq_mod, h0]; decide
  · show DualShock.getDPadRightState (d 5 &&& 15) = false
    rw [and_15_eq_mod, h0]; decide
  · show DualShock.getDPadDownState (d 5 &&& 15) = false
    rw [and_15_eq_mod, h0]; decide
  · show DualShock.getDPadLeftState (d 5 &&& 15) = false
    rw [and_15_eq_mod, h0]; decide
  · show DualShock.getDPadUpState (e 5 &&& 15) = false
    rw [and_15_eq_mod, h8]; decide
  · show DualShock.getDPadRightState (e 5 &&& 15) = false
    rw [and_15_eq_mod, h8]; decide
  · show DualShock.getDPadDownState (e 5 &&& 15) = false
    rw [and_15_eq_mod, h8]; decide
  · show DualShock.getDPadLeftState (e 5 &&& 15) = false
    rw [and_15_eq_mod, h8]; decide
  · show DualShock.getDPadUpState (f 5 &&& 15) = _
    rw [and_15_eq_mod, getDPadUpState_eq]
  · show DualShock.getDPadRightState (f 5 &&& 15) = _
    rw [and_15_eq_mod, getDPadRightState_eq]
  · show DualShock.getDPadDownState (f 5 &&& 15) = _
    rw [and_15_eq_mod, getDPadDownState_eq]
  · show DualShock.getDPadLeftState (f 5 &&& 15) = _
    rw [and_15_eq_mod, getDPadLeftState_eq]

/-- C4 witness: the D-pad theorem applied at three concrete reports with
byte-5 low nibbles 0, 8 and 6. -/
theorem claim_C4_dpad_witness :
    ((DualShock.parseHIDData (mkReport [])).dPadUp = true ∧
     (DualShock.parseHIDData (mkReport [])).dPadRight = false ∧
     (DualShock.parseHIDData (mkReport [])).dPadDown = false ∧
     (DualShock.parseHIDData (mkReport [])).dPadLeft = false) ∧
    ((DualShock.parseHIDData (mkReport [0, 0, 0, 0, 0, 8])).dPadUp = false ∧
     (DualShock.parseHIDData (mkReport [0, 0, 0, 0, 0, 8])).dPadRight = false ∧
     (DualShock.parseHIDData (mkReport [0, 0, 0, 0, 0, 8])).dPadDown = false ∧
     (DualShock.parseHIDData (mkReport [0, 0, 0, 0, 0, 8])).dPadLeft = false) ∧
    ((DualShock.parseHIDData (mkReport [0, 0, 0, 0, 0, 6])).dPadUp =
       decide ((mkReport [0, 0, 0, 0, 0, 6]) 5 % 16 = 0 ∨
         (mkReport [0, 0, 0, 0, 0, 6]) 5 % 16 = 1 ∨
         (mkReport [0, 0, 0, 0, 0, 6]) 5 % 16 = 7) ∧
     (DualShock.parseHIDData (mkReport [0, 0, 0, 0, 0, 6])).dPadRight =
       decide ((mkReport [0, 0, 0, 0, 0, 6]) 5 % 16 = 1 ∨
         (mkReport [0, 0, 0, 0, 0, 6]) 5 % 16 = 2 ∨
         (mkReport [0, 0, 0, 0, 0, 6]) 5 % 16 = 3) ∧
     (DualShock.parseHIDData (mkReport [0, 0, 0, 0, 0, 6])).dPadDown =
       decide ((mkReport [0, 0, 0, 0, 0, 6]) 5 % 16 = 3 ∨
         (mkReport [0, 0, 0, 0, 0, 6]) 5 % 16 = 4 ∨
         (mkReport [0, 0, 0, 0, 0, 6]) 5 % 16 = 5) ∧
     (DualShock.parseHIDData (mkReport [0, 0, 0, 0, 0, 6])).dPadLeft =
       decide ((mkReport [0, 0, 0, 0, 0, 6]) 5 % 16 = 5 ∨
         (mkReport [0, 0, 0, 0, 0, 6]) 5 % 16 = 6 ∨
         (mkReport [0, 0, 0, 0, 0, 6]) 5 % 16 = 7)) :=
  claim_C4_dpad (mkReport []) (mkReport [0, 0, 0, 0, 0, 8]) (mkReport [0, 0, 0, 0, 0, 6])
    (by decide) (by decide)

/-! ### Helper lemmas for touch and sensor decoding -/

theorem or_disjoint_8 (a b : Nat) (hb : b < 256) : (a <<< 8) ||| b = a * 256 + b := by
  have hb2 : b < 2 ^ 8 := by omega
  have h2 := Nat.mul_add_lt_is_or hb2 a
  have h3 : a <<< 8 = 2 ^ 8 * a := by
    rw [Nat.shiftLeft_eq]
    exact Nat.mul_comm a (2 ^ 8)
  rw [h3, ← h2]
  omega

theorem or_disjoint_4 (a b : Nat) (hb : b < 16) : (a <<< 4) ||| b = a * 16 + b := by
  have hb2 : b < 2 ^ 4 := by omega
  have h2 := Nat.mul_add_lt_is_or hb2 a
  have h3 : a <<< 4 = 2 ^ 4 * a := by
    rw [Nat.shiftLeft_eq]
    exact Nat.mul_comm a (2 ^ 4)
  rw [h3, ← h2]
  omega

set_option maxRecDepth 8192 in
theorem and_240_shiftRight_4 (x : Nat) (h : x < 256) : (x &&& 240) >>> 4 = x / 16 := by
  have hall : ∀ y, y < 256 → (y &&& 240) >>> 4 = y / 16 := by decide
  exact hall x h

set_option maxRecDepth 8192 in
theorem byte_shiftRight_7 (x : Nat) (h : x < 256) : ((x >>> 7) == 0) = !(x.testBit 7) := by
  have hall : ∀ y, y < 256 → ((y >>> 7) == 0) = !(y.testBit 7) := by decide
  exact hall x h

theorem and_127_eq_mod (n : Nat) : n &&& 127 = n % 128 := by
  simpa using Nat.and_pow_two_sub_one_eq_mod n 7

/-! ### Claim C2: touchpad decoding -/

/-- C2: for every well-formed report buffer, touch 1 decodes with active
equal to the negation of the top bit of byte 35, id equal to the low 7 bits
of byte 35, x = low nibble of byte 37 shifted left 8 OR byte 36, and
y = byte 38 shifted left 4 OR high nibble of byte 37 shifted right 4
(stated arithmetically as nibble-and-byte recombination); touch 2 follows
the identical pattern at bytes 39..42. A report with byte 35 = 0x05 gives
touch 1 active with id 5, and byte 35 = 0x85 gives touch 1 inactive. -/
theorem claim_C2_touch (data e g : HIDReport) (wf : wellFormed data)
    (he : e 35 = 5) (hg : g 35 = 133) :
    (DualShock.parseHIDData data).touchPad.touches =
      [ { active := !((data 35).testBit 7)
          coordinates :=
            { x := (((data 37 % 16) * 256 + data 36 : Nat) : Int)
              y := ((data 38 * 16 + data 37 / 16 : Nat) : Int)
              z := 0 }
          id := data 35 % 128 }
      , { active := !((data 39).testBit 7)
          coordinates :=
            { x := (((data 41 % 16) * 256 + data 40 : Nat) : Int)
              y := ((data 42 * 16 + data 41 / 16 : Nat) : Int)
              z := 0 }
          id := data 39 % 128 } ] ∧
    ((DualShock.parseHIDData e).touchPad.touches.head?.map
      (fun t => (t.active, t.id))) = some (true, 5) ∧
    ((DualShock.parseHIDData g).touchPad.touches.head?.map TouchState.active) =
      some false := by
  refine ⟨?_, ?_, ?_⟩
  · have hact1 : ((data 35 >>> 7) == 0) = !((data 35).testBit 7) :=
      byte_shiftRight_7 _ (wf 35)
    have hact2 : ((data 39 >>> 7) == 0) = !((data 39).testBit 7) :=
      byte_shiftRight_7 _ (wf 39)
    have hid1 : data 35 &&& 127 = data 35 % 128 := and_127_eq_mod _
    have hid2 : data 39 &&& 127 = data 39 % 128 := and_127_eq_mod _
    have hx1 : ((data 37 &&& 15) <<< 8) ||| data 36 = (data 37 % 16) * 256 + data 36 := by
      rw [or_disjoint_8 _ _ (wf 36), and_15_eq_mod]
    have hx2 : ((data 41 &&& 15) <<< 8) ||| data 40 = (data 41 % 16) * 256 + data 40 := by
      rw [or_disjoint_8 _ _ (wf 40), and_15_eq_mod]
    have hy1 : (data 38 <<< 4) ||| ((data 37 &&& 240) >>> 4) = data 38 * 16 + data 37 / 16 := by
      rw [and_240_shiftRight_4 _ (wf 37)]
      have hlt : data 37 / 16 < 16 := by
        have := wf 37
        omega
      rw [or_disjoint_4 _ _ hlt]
    have hy2 : (data 42 <<< 4) ||| ((data 41 &&& 240) >>> 4) = data 42 * 16 + data 41 / 16 := by
      rw [and_240_shiftRight_4 _ (wf 41)]
      have hlt : data 41 / 16 < 16 := by
        have := wf 41
        omega
      rw [or_disjoint_4 _ _ hlt]
    show (DualShock.getTrackPadState data).touches = _
    unfold DualShock.getTrackPadState
    simp only [hact1, hact2, hid1, hid2, hx1, hx2, hy1, hy2]
  · show (DualShock.getTrackPadState e).touches.head?.map (fun t => (t.active, t.id)) = _
    unfold DualShock.getTrackPadState
    rw [he]
    rfl
  · show (DualShock.getTrackPadState g).touches.head?.map TouchState.active = _
    unfold DualShock.getTrackPadState
    rw [hg]
    rfl

/-- Sample report with touch bytes 35..42 set to
5, 18, 52, 86, 133, 154, 188, 222. -/
def rptC2 : HIDReport :=
  mkReport [0, 0, 0, 0, 0, 0, 0, 0, 0, 0,
            0, 0, 0, 0, 0, 0, 0, 0, 0, 0,
            0, 0, 0, 0, 0, 0, 0, 0, 0, 0,
            0, 0, 0, 0, 0, 5, 18, 52, 86, 133,
            154, 188, 222]

/-- Sample report with byte 35 set to 0x85 = 133 (top bit set). -/
def rptC2b : HIDReport :=
  mkReport [0, 0, 0, 0, 0, 0, 0, 0, 0, 0,
            0, 0, 0, 0, 0, 0, 0, 0, 0, 0,
            0, 0, 0, 0, 0, 0, 0, 0, 0, 0,
            0, 0, 0, 0, 0, 133]

/-- C2 witness: the touch theorem applied at concrete reports, one with
byte 35 = 0x05 and one with byte 35 = 0x85. -/
theorem claim_C2_touch_witness :
    (DualShock.parseHIDData rptC2).touchPad.touches =
      [ { active := !((rptC2 35).testBit 7)
          coordinates :=
            { x := (((rptC2 37 % 16) * 256 + rptC2 36 : Nat) : Int)
              y := ((rptC2 38 * 16 + rptC2 37 / 16 : Nat) : Int)
              z := 0 }
          id := rptC2 35 % 128 }
      , { active := !((rptC2 39).testBit 7)
          coordinates :=
            { x := (((rptC2 41 % 16) * 256 + rptC2 40 : Nat) : Int)
              y := ((rptC2 42 * 16 + rptC2 41 / 16 : Nat) : Int)
              z := 0 }
          id := rptC2 39 % 128 } ] ∧
    ((DualShock.parseHIDData rptC2).touchPad.touches.head?.map
      (fun t => (t.active, t.id))) = some (true, 5) ∧
    ((DualShock.parseHIDData rptC2b).touchPad.touches.head?.map TouchState.active) =
      some false :=
  claim_C2_touch rptC2 rptC2 rptC2b (mkReport_wellFormed _) (by decide) (by decide)

/-! ### Claim C3: motion decoding -/

theorem readInt16LE_spec (data : HIDReport) (o : Nat) (h0 : data o < 256)
    (h1 : data (o + 1) < 256) :
    -32768 ≤ readInt16LE data o ∧ readInt16LE data o ≤ 32767 ∧
    readInt16LE data o % 65536 = ((data o + 256 * data (o + 1) : Nat) : Int) % 65536 := by
  by_cases h : data o + 256 * data (o + 1) < 32768
  · simp only [readInt16LE, if_pos h]
    refine ⟨by omega, by omega, trivial⟩
  · simp only [readInt16LE, if_neg h]
    refine ⟨by omega, by omega, by omega⟩

/-- C3: the motion field is decoded from three signed 16-bit little-endian
values at byte offsets 13, 15 and 17: motion.x is the twos-complement
value of the word at 13 (in range -32768..32767 and congruent to the raw
word mod 65536), while motion.y and motion.z are the negations of the
values at 15 and 17; a raw int16 of 100 at offset 15 gives motion.y = -100,
and a raw int16 of -50 (bytes 206, 255) at offset 17 gives motion.z = 50. -/
theorem claim_C3_motion (data e g : HIDReport) (wf : wellFormed data)
    (he1 : e 15 = 100) (he2 : e 16 = 0) (hg1 : g 17 = 206) (hg2 : g 18 = 255) :
    (-32768 ≤ (DualShock.parseHIDData data).motion.x ∧
     (DualShock.parseHIDData data).motion.x ≤ 32767 ∧
     (DualShock.parseHIDData data).motion.x % 65536 =
       ((data 13 + 256 * data 14 : Nat) : Int) % 65536) ∧
    (-32767 ≤ (DualShock.parseHIDData data).motion.y ∧
     (DualShock.parseHIDData data).motion.y ≤ 32768 ∧
     (-(DualShock.parseHIDData data).motion.y) % 65536 =
       ((data 15 + 256 * data 16 : Nat) : Int) % 65536) ∧
    (-32767 ≤ (DualShock.parseHIDData data).motion.z ∧
     (DualShock.parseHIDData data).motion.z ≤ 32768 ∧
     (-(DualShock.parseHIDData data).motion.z) % 65536 =
       ((data 17 + 256 * data 18 : Nat) : Int) % 65536) ∧
    (DualShock.parseHIDData e).motion.y = -100 ∧
    (DualShock.parseHIDData g).motion.z = 50 := by
  have hx : (DualShock.parseHIDData data).motion.x = readInt16LE data 13 := rfl
  have hy : (DualShock.parseHIDData data).motion.y = -readInt16LE data 15 := rfl
  have hz : (DualShock.parseHIDData data).motion.z = -readInt16LE data 17 := rfl
  have s13 := readInt16LE_spec data 13 (wf 13) (wf 14)
  have s15 := readInt16LE_spec data 15 (wf 15) (wf 16)
  have s17 := readInt16LE_spec data 17 (wf 17) (wf 18)
  refine ⟨?_, ?_, ?_, ?_, ?_⟩
  · rw [hx]
    exact s13
  · rw [hy]
    refine ⟨by omega, by omega, ?_⟩
    rw [neg_neg]
    exact s15.2.2
  · rw [hz]
    refine ⟨by omega, by omega, ?_⟩
    rw [neg_neg]
    exact s17.2.2
  · have h : (DualShock.parseHIDData e).motion.y = -readInt16LE e 15 := rfl
    rw [h]
    simp only [readInt16LE, he1, he2]
    norm_num
  · have h : (DualShock.parseHIDData g).motion.z = -readInt16LE g 17 := rfl
    rw [h]
    simp only [readInt16LE, hg1, hg2]
    norm_num

/-- Sample report with motion bytes 13..18 set to 52, 18, 100, 0, 206,
255: raw x = 0x1234, raw y = 100, raw z = -50. -/
def rptC3 : HIDReport :=
  mkReport [0, 0, 0, 0, 0, 0, 0, 0, 0, 0,
            0, 0, 0, 52, 18, 100, 0, 206, 255]

/-- C3 witness: the motion theorem applied at a concrete report carrying
raw words 0x1234, 100 and -50 at offsets 13, 15 and 17. -/
theorem claim_C3_motion_witness :
    (-32768 ≤ (DualShock.parseHIDData rptC3).motion.x ∧
     (DualShock.parseHIDData rptC3).motion.x ≤ 32767 ∧
     (DualShock.parseHIDData rptC3).motion.x % 65536 =
       ((rptC3 13 + 256 * rptC3 14 : Nat) : Int) % 65536) ∧
    (-32767 ≤ (DualShock.parseHIDData rptC3).motion.y ∧
     (DualShock.parseHIDData rptC3).motion.y ≤ 32768 ∧
     (-(DualShock.parseHIDData rptC3).motion.y) % 65536 =
       ((rptC3 15 + 256 * rptC3 16 : Nat) : Int) % 65536) ∧
    (-32767 ≤ (DualShock.parseHIDData rptC3).motion.z ∧
     (DualShock.parseHIDData rptC3).motion.z ≤ 32768 ∧
     (-(DualShock.parseHIDData rptC3).motion.z) % 65536 =
       ((rptC3 17 + 256 * rptC3 18 : Nat) : Int) % 65536) ∧
    (DualShock.parseHIDData rptC3).motion.y = -100 ∧
    (DualShock.parseHIDData rptC3).motion.z = 50 :=
  claim_C3_motion rptC3 rptC3 rptC3 (mkReport_wellFormed _)
    (by decide) (by decide) (by decide) (by decide)

/-! ### Claim C5: state channel ordering and last-value replay -/

/-- C5: after publish(A) then publish(B) on the state channel, every
observer registered before both publishes has observed A then B appended in
that order; the list of observers is updated pointwise in registration
order with no coalescing or drops; the channel then holds B; and an
observer subscribing after both publishes is handed exactly the single
value B on subscription. -/
theorem claim_C5_channel (α : Type) (c : StateChannel α) (A B : α) :
    (StateChannel.publish (StateChannel.publish c A) B).observers =
      c.observers.map (fun o => { o with observed := o.observed ++ [A, B] }) ∧
    (StateChannel.publish (StateChannel.publish c A) B).current = B ∧
    (StateChannel.subscribe (StateChannel.publish (StateChannel.publish c A) B)).1.observers =
      (StateChannel.publish (StateChannel.publish c A) B).observers ++
        [{ id := c.nextId, observed := [B] }] := by
  refine ⟨?_, rfl, rfl⟩
  simp only [StateChannel.publish, List.map_map]
  apply List.map_congr_left
  intro o _
  simp

/-! ### Claim C6: connect with no matching device -/

/-- C6: when no enumerated device matches the configured vendor and product
identifiers, `connect()` leaves the handle slot empty (Disconnected), opens
no handle, registers no data or error callback, logs exactly one error, and
performs exactly one enumeration (no retry). -/
theorem claim_C6_connect (devs : List Device) (opts : ResolvedOptions)
    (h : ∀ d ∈ devs, DualShock.findDevice opts d = false) :
    DualShock.connect devs opts =
      (none, [HIDAction.logInfo, HIDAction.enumerate, HIDAction.logError]) ∧
    (DualShock.connect devs opts).2.count HIDAction.logError = 1 ∧
    (DualShock.connect devs opts).2.count HIDAction.openHandle = 0 ∧
    (DualShock.connect devs opts).2.count HIDAction.registerData = 0 ∧
    (DualShock.connect devs opts).2.count HIDAction.registerError = 0 ∧
    (DualShock.connect devs opts).2.count HIDAction.enumerate = 1 := by
  have hf : devs.find? (DualShock.findDevice opts) = none := by
    rw [List.find?_eq_none]
    intro d hd
    simp [h d hd]
  have hc : DualShock.connect devs opts =
      (none, [HIDAction.logInfo, HIDAction.enumerate, HIDAction.logError]) := by
    unfold DualShock.connect
    rw [hf]
  rw [hc]
  refine ⟨rfl, rfl, rfl, rfl, rfl, rfl⟩

/-- C6 witness: connect on a single enumerated device 1:2 with the default
options 0x054c:0x09cc. -/
theorem claim_C6_connect_witness :
    DualShock.connect [{ vendorId := 1, productId := 2 }] (DualShock.construct none) =
      (none, [HIDAction.logInfo, HIDAction.enumerate, HIDAction.logError]) ∧
    (DualShock.connect [{ vendorId := 1, productId := 2 }]
      (DualShock.construct none)).2.count HIDAction.logError = 1 ∧
    (DualShock.connect [{ vendorId := 1, productId := 2 }]
      (DualShock.construct none)).2.count HIDAction.openHandle = 0 ∧
    (DualShock.connect [{ vendorId := 1, productId := 2 }]
      (DualShock.construct none)).2.count HIDAction.registerData = 0 ∧
    (DualShock.connect [{ vendorId := 1, productId := 2 }]
      (DualShock.construct none)).2.count HIDAction.registerError = 0 ∧
    (DualShock.connect [{ vendorId := 1, productId := 2 }]
      (DualShock.construct none)).2.count HIDAction.enumerate = 1 :=
  claim_C6_connect [{ vendorId := 1, productId := 2 }] (DualShock.construct none)
    (by decide)

/-! ### Claim C7: transport error handling -/

/-- C7: the error handler closes the HID handle and logs the fault, and
changes nothing else — the state channel (its current snapshot and every
observer log) is untouched, and the trace shows no enumeration, no handle
opening and no callback registration, hence no reconnection attempt. -/
theorem claim_C7_error (m : DualShock.ControllerModel) :
    (DualShock.handleHIDError m).1.channel = m.channel ∧
    (DualShock.handleHIDError m).1.hid =
      m.hid.map (fun h => { h with isOpen := false }) ∧
    (DualShock.handleHIDError m).2 = [HIDAction.closeHandle, HIDAction.logError] ∧
    (DualShock.handleHIDError m).2.count HIDAction.logError = 1 ∧
    (DualShock.handleHIDError m).2.count HIDAction.enumerate = 0 ∧
    (DualShock.handleHIDError m).2.count HIDAction.openHandle = 0 ∧
    (DualShock.handleHIDError m).2.count HIDAction.registerData = 0 ∧
    (DualShock.handleHIDError m).2.count HIDAction.registerError = 0 :=
  ⟨rfl, rfl, rfl, rfl, rfl, rfl, rfl, rfl⟩

/-! ### Claim C8: decoding is deterministic and pure -/

/-- C8: decoding is a pure function of the first 44 bytes — any two report
buffers that agree byte for byte on indices below 44 decode to structurally
identical snapshots (in this embedding the decoder is a mathematical
function, so it reads no mutable state shared across calls and equal
buffers trivially give equal snapshots; this theorem states the stronger
frame fact that only the 44-byte report window matters). -/
theorem claim_C8_pure (b1 b2 : HIDReport) (h : ∀ i, i < 44 → b1 i = b2 i) :
    DualShock.parseHIDData b1 = DualShock.parseHIDData b2 := by
  simp only [DualShock.parseHIDData, DualShock.getCircleState, DualShock.getCrossState,
    DualShock.getDPadDownState, DualShock.getDPadLeftState, DualShock.getDPadRightState,
    DualShock.getDPadUpState, DualShock.getL1State, DualShock.getL2State,
    DualShock.getL3State, DualShock.getLeftStickState, DualShock.getMotionState,
    DualShock.getOptionsState, DualShock.getOrientationState, DualShock.getPsState,
    DualShock.getR1State, DualShock.getR2State, DualShock.getR3State,
    DualShock.getRightStickState, DualShock.getShareState, DualShock.getSquareState,
    DualShock.getTimestampState, DualShock.getTrackPadState, DualShock.getTriangleState,
    readInt16LE,
    h 1 (by omega), h 2 (by omega), h 3 (by omega), h 4 (by omega), h 5 (by omega),
    h 6 (by omega), h 7 (by omega), h 8 (by omega), h 9 (by omega), h 12 (by omega),
    h 13 (by omega), h 14 (by omega), h 15 (by omega), h 16 (by omega),
    h 17 (by omega), h 18 (by omega), h 19 (by omega), h 20 (by omega),
    h 21 (by omega), h 22 (by omega), h 23 (by omega), h 24 (by omega),
    h 35 (by omega), h 36 (by omega), h 37 (by omega), h 38 (by omega),
    h 39 (by omega), h 40 (by omega), h 41 (by omega), h 42 (by omega)]

/-- A buffer that equals the all-zero buffer on the 44-byte report window
but differs beyond it. -/
def rptTail7 : HIDReport :=
  fun i => if i < 44 then 0 else 7

/-- C8 witness: the purity theorem applied to the all-zero report and a
report that differs only at indices 44 and beyond. -/
theorem claim_C8_pure_witness :
    DualShock.parseHIDData (mkReport []) = DualShock.parseHIDData rptTail7 :=
  claim_C8_pure (mkReport []) rptTail7 (by
    intro i hi
    show mkReport [] i = if i < 44 then 0 else 7
    rw [if_pos hi]
    rfl)

/-! ### Claim C9: constructor defaults by falsy coalescing -/

theorem orDefaultNat_ne_zero (v : Option Nat) (d : Nat) (hd : d ≠ 0) :
    orDefaultNat v d ≠ 0 := by
  unfold orDefaultNat
  cases v with
  | none => exact hd
  | some x =>
    by_cases h : x = 0
    · simp [h, hd]
    · simp [h]

/-- C9: the constructor fills option defaults by falsy coalescing — a
supplied vendorID of 0 is replaced by 0x054c, a productID of 0 by 0x09cc,
and an empty tag by "DualShock" — and consequently the effective vendor and
product identifiers are never zero, for any options value. -/
theorem claim_C9_defaults (o : DualShockOptions) (oo : Option DualShockOptions) :
    (o.vendorID = some 0 → (DualShock.construct (some o)).vendorID = 0x054c) ∧
    (o.productID = some 0 → (DualShock.construct (some o)).productID = 0x09cc) ∧
    (o.tag = some "" → (DualShock.construct (some o)).tag = "DualShock") ∧
    (DualShock.construct oo).vendorID ≠ 0 ∧
    (DualShock.construct oo).productID ≠ 0 := by
  refine ⟨?_, ?_, ?_, ?_, ?_⟩
  · intro h
    show orDefaultNat o.vendorID 0x054c = 0x054c
    rw [h]
    rfl
  · intro h
    show orDefaultNat o.productID 0x09cc = 0x09cc
    rw [h]
    rfl
  · intro h
    show orDefaultString o.tag "DualShock" = "DualShock"
    rw [h]
    rfl
  · exact orDefaultNat_ne_zero _ _ (by norm_num)
  · exact orDefaultNat_ne_zero _ _ (by norm_num)

/-- C9 witness: the defaults theorem applied at the all-falsy options value
and at absent options. -/
theorem claim_C9_defaults_witness :
    (DualShock.construct
      (some { productID := some 0, tag := some "", vendorID := some 0 })).vendorID = 0x054c ∧
    (DualShock.construct
      (some { productID := some 0, tag := some "", vendorID := some 0 })).productID = 0x09cc ∧
    (DualShock.construct
      (some { productID := some 0, tag := some "", vendorID := some 0 })).tag = "DualShock" ∧
    (DualShock.construct none).vendorID ≠ 0 ∧
    (DualShock.construct none).productID ≠ 0 :=
  have h := claim_C9_defaults
    { productID := some 0, tag := some "", vendorID := some 0 } none
  ⟨h.1 rfl, h.2.1 rfl, h.2.2.1 rfl, h.2.2.2.1, h.2.2.2.2⟩

/-! ### Claim C10: range invariants of the decoded snapshot -/

theorem touchX_lt (a b : Nat) (hb : b < 256) : ((a &&& 15) <<< 8) ||| b < 4096 := by
  have h1 : (a &&& 15) <<< 8 < 2 ^ 12 := by
    have h15 : a &&& 15 ≤ 15 := Nat.and_le_right
    rw [Nat.shiftLeft_eq]
    omega
  have h2 : b < 2 ^ 12 := by omega
  have h3 := Nat.or_lt_two_pow h1 h2
  omega

theorem touchY_lt (a c : Nat) (hc : c < 256) :
    (c <<< 4) ||| ((a &&& 240) >>> 4) < 4096 := by
  have h1 : c <<< 4 < 2 ^ 12 := by
    rw [Nat.shiftLeft_eq]
    omega
  have h2 : (a &&& 240) >>> 4 < 2 ^ 12 := by
    rw [Nat.shiftRight_eq_div_pow]
    have h240 : a &&& 240 ≤ 240 := Nat.and_le_right
    omega
  have h3 := Nat.or_lt_two_pow h1 h2
  omega

/-- C10: for every well-formed report buffer the decoded snapshot satisfies
the range invariants implied by the bit extraction — timestamp in 0..63,
stick axes in 0..255 with z = 0, and each touch id in 0..127 with x and y
in 0..4095 and z = 0. -/
theorem claim_C10_ranges (data : HIDReport) (wf : wellFormed data) :
    (DualShock.parseHIDData data).timestamp ≤ 63 ∧
    (0 ≤ (DualShock.parseHIDData data).leftStick.x ∧
     (DualShock.parseHIDData data).leftStick.x ≤ 255 ∧
     0 ≤ (DualShock.parseHIDData data).leftStick.y ∧
     (DualShock.parseHIDData data).leftStick.y ≤ 255 ∧
     (DualShock.parseHIDData data).leftStick.z = 0) ∧
    (0 ≤ (DualShock.parseHIDData data).rightStick.x ∧
     (DualShock.parseHIDData data).rightStick.x ≤ 255 ∧
     0 ≤ (DualShock.parseHIDData data).rightStick.y ∧
     (DualShock.parseHIDData data).rightStick.y ≤ 255 ∧
     (DualShock.parseHIDData data).rightStick.z = 0) ∧
    ∀ t ∈ (DualShock.parseHIDData data).touchPad.touches,
      t.id ≤ 127 ∧
      0 ≤ t.coordinates.x ∧ t.coordinates.x ≤ 4095 ∧
      0 ≤ t.coordinates.y ∧ t.coordinates.y ≤ 4095 ∧
      t.coordinates.z = 0 := by
  refine ⟨?_, ⟨?_, ?_, ?_, ?_, rfl⟩, ⟨?_, ?_, ?_, ?_, rfl⟩, ?_⟩
  · show DualShock.getTimestampState (data 7) ≤ 63
    unfold DualShock.getTimestampState
    rw [Nat.shiftRight_eq_div_pow]
    have := wf 7
    omega
  · show (0 : Int) ≤ ((data 1 : Nat) : Int)
    omega
  · show ((data 1 : Nat) : Int) ≤ 255
    have := wf 1
    omega
  · show (0 : Int) ≤ ((data 2 : Nat) : Int)
    omega
  · show ((data 2 : Nat) : Int) ≤ 255
    have := wf 2
    omega
  · show (0 : Int) ≤ ((data 3 : Nat) : Int)
    omega
  · show ((data 3 : Nat) : Int) ≤ 255
    have := wf 3
    omega
  · show (0 : Int) ≤ ((data 4 : Nat) : Int)
    omega
  · show ((data 4 : Nat) : Int) ≤ 255
    have := wf 4
    omega
  · intro t ht
    simp only [DualShock.parseHIDData, DualShock.getTrackPadState, List.mem_cons,
      List.not_mem_nil, or_false] at ht
    rcases ht with rfl | rfl
    · refine ⟨Nat.and_le_right, ?_, ?_, ?_, ?_, rfl⟩
      · show (0 : Int) ≤ ((((data 37 &&& 15) <<< 8) ||| data 36 : Nat) : Int)
        omega
      · show ((((data 37 &&& 15) <<< 8) ||| data 36 : Nat) : Int) ≤ 4095
        have := touchX_lt (data 37) (data 36) (wf 36)
        omega
      · show (0 : Int) ≤ (((data 38 <<< 4) ||| ((data 37 &&& 240) >>> 4) : Nat) : Int)
        omega
      · show (((data 38 <<< 4) ||| ((data 37 &&& 240) >>> 4) : Nat) : Int) ≤ 4095
        have := touchY_lt (data 37) (data 38) (wf 38)
        omega
    · refine ⟨Nat.and_le_right, ?_, ?_, ?_, ?_, rfl⟩
      · show (0 : Int) ≤ ((((data 41 &&& 15) <<< 8) ||| data 40 : Nat) : Int)
        omega
      · show ((((data 41 &&& 15) <<< 8) ||| data 40 : Nat) : Int) ≤ 4095
        have := touchX_lt (data 41) (data 40) (wf 40)
        omega
      · show (0 : Int) ≤ (((data 42 <<< 4) ||| ((data 41 &&& 240) >>> 4) : Nat) : Int)
        omega
      · show (((data 42 <<< 4) ||| ((data 41 &&& 240) >>> 4) : Nat) : Int) ≤ 4095
        have := touchY_lt (data 41) (data 42) (wf 42)
        omega

/-- C10 witness: the range theorem applied at a concrete sample report. -/
theorem claim_C10_ranges_witness :
    (DualShock.parseHIDData rptC2).timestamp ≤ 63 ∧
    (0 ≤ (DualShock.parseHIDData rptC2).leftStick.x ∧
     (DualShock.parseHIDData rptC2).leftStick.x ≤ 255 ∧
     0 ≤ (DualShock.parseHIDData rptC2).leftStick.y ∧
     (DualShock.parseHIDData rptC2).leftStick.y ≤ 255 ∧
     (DualShock.parseHIDData rptC2).leftStick.z = 0) ∧
    (0 ≤ (DualShock.parseHIDData rptC2).rightStick.x ∧
     (DualShock.parseHIDData rptC2).rightStick.x ≤ 255 ∧
     0 ≤ (DualShock.parseHIDData rptC2).rightStick.y ∧
     (DualShock.parseHIDData rptC2).rightStick.y ≤ 255 ∧
     (DualShock.parseHIDData rptC2).rightStick.z = 0) ∧
    ∀ t ∈ (DualShock.parseHIDData rptC2).touchPad.touches,
      t.id ≤ 127 ∧
      0 ≤ t.coordinates.x ∧ t.coordinates.x ≤ 4095 ∧
      0 ≤ t.coordinates.y ∧ t.coordinates.y ≤ 4095 ∧
      t.coordinates.z = 0 :=
  claim_C10_ranges rptC2 (mkReport_wellFormed _)
